import Mathlib

/-!
Verification of the `Header` component of `src/Header.js`.

The source file declares two emotion-styled elements and a wrapper:

  const StyledHeader = styled.header`
    width: 100%;
    min-height: 100vh;
    align-items: center;
    display: flex;
    justify-content: center;
  `;

  const StyledH1 = styled.h1`
    font-size: 2re;
  `;

  const Header = (props) => (
    <StyledHeader>
      <StyledH1>{props.children}</StyledH1>
    </StyledHeader>
  );

We embed the produced React element tree shallowly: a node is either opaque
caller content or a tagged element carrying an attached CSS declaration
block and a list of child nodes.  `Header` is polymorphic in the content
type (the JS code never inspects `props.children`) and in the type of the
remaining props (it reads only `props.children`).
-/

/-- One CSS declaration, a `property: value` pair from a styled template. -/
structure Decl where
  property : String
  value : String
deriving DecidableEq, Repr

/-- A React element tree: opaque content, or a tagged element with an
attached style block and children. -/
inductive RNode (α : Type) where
  | content (c : α)
  | elem (tag : String) (css : List Decl) (children : List (RNode α))

/-- The props object passed to `Header`: a `children` field plus whatever
other fields the caller supplies (modelled by an arbitrary second type). -/
structure Props (α β : Type) where
  children : α
  rest : β

/-- The style block of `StyledHeader` (src/Header.js lines 4-10). -/
def styledHeaderCSS : List Decl :=
  [⟨"width", "100%"⟩,
   ⟨"min-height", "100vh"⟩,
   ⟨"align-items", "center"⟩,
   ⟨"display", "flex"⟩,
   ⟨"justify-content", "center"⟩]

/-- The style block of `StyledH1` (src/Header.js lines 12-14); the value
`2re` carries the deliberately invalid unit `re`. -/
def styledH1CSS : List Decl :=
  [⟨"font-size", "2re"⟩]

/-- `StyledHeader`: a `header` element with the fixed layout block. -/
def StyledHeader {α : Type} (kids : List (RNode α)) : RNode α :=
  .elem "header" styledHeaderCSS kids

/-- `StyledH1`: an `h1` element with the fixed text-size block. -/
def StyledH1 {α : Type} (kids : List (RNode α)) : RNode α :=
  .elem "h1" styledH1CSS kids

/-- The `Header` component (src/Header.js lines 16-20): it places
`props.children` inside `StyledH1` inside `StyledHeader`. -/
def Header {α β : Type} (props : Props α β) : RNode α :=
  StyledHeader [StyledH1 [.content props.children]]

/-- A concrete content domain for the scenario claims: text, a nested
structure, or empty/absent content. -/
inductive Content where
  | empty
  | text (s : String)
  | node (tag : String) (kids : List Content)

/-- The innermost slot of a two-level tree: the content sitting alone
inside the inner element; `none` if the tree has another shape. -/
def innerContent {α : Type} : RNode α → Option α
  | .elem _ _ [.elem _ _ [.content c]] => some c
  | _ => none

/-- The style block attached to the outermost element. -/
def outerCSS {α : Type} : RNode α → Option (List Decl)
  | .elem _ css _ => some css
  | .content _ => none

/-- The tag of the outermost element. -/
def outerTag {α : Type} : RNode α → Option String
  | .elem t _ _ => some t
  | .content _ => none

/-- The style block attached to the single inner element of a two-level
tree. -/
def innerCSS {α : Type} : RNode α → Option (List Decl)
  | .elem _ _ [.elem _ css _] => some css
  | _ => none

/-- The tag of the single inner element of a two-level tree. -/
def innerTag {α : Type} : RNode α → Option String
  | .elem _ _ [.elem t _ _] => some t
  | _ => none

/-- Whether a tree is exactly two nested levels: an outer element directly
containing a single inner element that directly contains one content
slot. -/
def twoLevel {α : Type} : RNode α → Bool
  | .elem _ _ [.elem _ _ [.content _]] => true
  | _ => false

/-- Whether a tree is an element (as opposed to bare content). -/
def isElem {α : Type} : RNode α → Bool
  | .elem _ _ _ => true
  | .content _ => false

mutual

/-- Map a function over every content slot of a tree, keeping tags and
style blocks fixed. -/
def mapContent {α β : Type} (f : α → β) : RNode α → RNode β
  | .content c => .content (f c)
  | .elem t css kids => .elem t css (mapContentList f kids)

/-- `mapContent` on a list of children. -/
def mapContentList {α β : Type} (f : α → β) : List (RNode α) → List (RNode β)
  | [] => []
  | n :: ns => mapContent f n :: mapContentList f ns

end

/-- The shape of a tree: every content slot erased to `()`. -/
def shape {α : Type} (n : RNode α) : RNode Unit :=
  mapContent (fun _ => ()) n

mutual

/-- The text a `Content` value renders to: text renders itself, empty
content renders nothing, a nested node renders its children in order. -/
def renderedText : Content → String
  | .empty => ""
  | .text s => s
  | .node _ kids => renderedTextList kids

/-- `renderedText` over a list of children. -/
def renderedTextList : List Content → String
  | [] => ""
  | c :: cs => renderedText c ++ renderedTextList cs

end

/-- The text rendered by the innermost slot of a two-level tree. -/
def innerText (n : RNode Content) : String :=
  match innerContent n with
  | some c => renderedText c
  | none => ""

/-- A trace of `n` successive invocations of `Header` on the same props:
each list entry is the output of one invocation. -/
def renderTrace {α β : Type} (n : Nat) (p : Props α β) : List (RNode α) :=
  (List.range n).map (fun _ => Header p)

/-- Whether a character belongs to the numeric part of a CSS dimension. -/
def isNumChar (c : Char) : Bool :=
  c.isDigit || c == '.'

/-- Split a value's character list into its leading numeric part and the
remainder. -/
def splitNum : List Char → List Char × List Char
  | [] => ([], [])
  | c :: cs =>
    if isNumChar c then
      let p := splitNum cs
      (c :: p.1, p.2)
    else ([], c :: cs)

/-- Modelled from the spec: the external linter (not implemented in this
repository) reads a declaration value as a dimension — a number followed
by a unit; a value with no leading number, or with nothing after the
number, carries no unit. -/
def unitOf (v : String) : Option String :=
  let p := splitNum v.toList
  if p.1 = [] ∨ p.2 = [] then none else some (String.mk p.2)

/-- Modelled from the spec: the measurement units the external linter
recognises; `rem` is among them, the misspelt `re` is not. -/
def knownUnits : List String :=
  ["em", "rem", "ex", "ch", "vw", "vh", "vmin", "vmax", "cm", "mm", "q",
   "in", "pt", "pc", "px", "deg", "grad", "rad", "turn", "s", "ms", "hz",
   "khz", "dpi", "dpcm", "dppx", "fr", "%"]

/-- A linter diagnostic: the rule that fired and the offending token. -/
structure Diagnostic where
  rule : String
  token : String
deriving DecidableEq, Repr

/-- Modelled from the spec: the external linter's unknown-unit check on
one declaration — it flags a dimension whose unit it does not recognise
with an unknown-unit diagnostic. -/
def lintDecl (d : Decl) : List Diagnostic :=
  match unitOf d.value with
  | some u => if u ∈ knownUnits then [] else [⟨"unit-no-unknown", u⟩]
  | none => []

/-- Modelled from the spec: the external linter's unknown-unit check over
a whole style block, collecting the diagnostics of its declarations. -/
def lintCSS (css : List Decl) : List Diagnostic :=
  css.foldr (fun d acc => lintDecl d ++ acc) []

/-- Claim C1: for every content value (of any type, so also empty or
nested content), `Header` places that value, exactly and unmodified, in
the innermost slot of its output; and it never inspects or transforms the
content: mapping any transformation over the content slots of the output
equals transforming the content before the invocation. -/
theorem header_places_content_exactly (α β γ : Type) (p : Props α β) (f : α → γ) :
    innerContent (Header p) = some p.children ∧
    mapContent f (Header p) = Header (Props.mk (f p.children) p.rest) := by
  constructor
  · rfl
  · simp [Header, StyledHeader, StyledH1, mapContent, mapContentList]

/-- Claim C2: for every content value, the output of `Header` has exactly
two nested levels — an outer `header` element directly containing a
single inner `h1` text element — regardless of the content. -/
theorem header_two_levels (α β : Type) (p : Props α β) :
    twoLevel (Header p) = true ∧
    outerTag (Header p) = some "header" ∧
    innerTag (Header p) = some "h1" :=
  ⟨rfl, rfl, rfl⟩

/-- Claim C3: for every content value, the outer container of the output
of `Header` carries the fixed layout rules full width, full viewport
height, flex layout, horizontally centered and vertically centered, the
inner container carries a text-size rule, and the content sits inside
them unmodified. -/
theorem header_style_rules (α β : Type) (p : Props α β) :
    outerCSS (Header p) = some styledHeaderCSS ∧
    Decl.mk "width" "100%" ∈ styledHeaderCSS ∧
    Decl.mk "min-height" "100vh" ∈ styledHeaderCSS ∧
    Decl.mk "display" "flex" ∈ styledHeaderCSS ∧
    Decl.mk "justify-content" "center" ∈ styledHeaderCSS ∧
    Decl.mk "align-items" "center" ∈ styledHeaderCSS ∧
    innerCSS (Header p) = some styledH1CSS ∧
    Decl.mk "font-size" "2re" ∈ styledH1CSS ∧
    innerContent (Header p) = some p.children := by
  refine ⟨rfl, ?_, ?_, ?_, ?_, ?_, rfl, ?_, rfl⟩ <;> decide

/-- Claim C4: `Header` is deterministic and keeps no hidden state between
invocations: a trace of any number of invocations on the same props is a
constant list, each entry structurally identical to every other. -/
theorem header_deterministic_trace (α β : Type) (p : Props α β) (n : Nat) :
    renderTrace n p = List.replicate n (Header p) := by
  simp [renderTrace]

/-- Claim C5: `Header` is total over its input domain: for every content
value — text, a nested structure, or empty/absent — the invocation
succeeds and produces an element structure; there is no error branch. -/
theorem header_total (β : Type) (c : Content) (r : β) :
    isElem (Header (Props.mk c r)) = true ∧
    ∃ kids, Header (Props.mk c r) = RNode.elem "header" styledHeaderCSS kids :=
  ⟨rfl, [StyledH1 [.content c]], rfl⟩

/-- Claim C6: invoking `Header` with the text `Hello` yields an outer
container carrying the full-viewport centered layout rules, whose inner
element renders the text exactly `Hello`. -/
theorem header_hello :
    innerText (Header (Props.mk (Content.text "Hello") ())) = "Hello" ∧
    outerCSS (Header (Props.mk (Content.text "Hello") ())) = some styledHeaderCSS ∧
    Decl.mk "width" "100%" ∈ styledHeaderCSS ∧
    Decl.mk "min-height" "100vh" ∈ styledHeaderCSS ∧
    Decl.mk "align-items" "center" ∈ styledHeaderCSS ∧
    Decl.mk "justify-content" "center" ∈ styledHeaderCSS := by
  refine ⟨?_, rfl, ?_, ?_, ?_, ?_⟩
  · simp [innerText, innerContent, Header, StyledHeader, StyledH1, renderedText]
  all_goals decide

/-- Claim C7: invoking `Header` with no content yields the same two-level
structure (same shape, tags and style blocks) as any other invocation,
with an empty inner slot that renders no text. -/
theorem header_empty_content (β : Type) (q : Props Content β) :
    shape (Header (Props.mk Content.empty ())) = shape (Header q) ∧
    innerContent (Header (Props.mk Content.empty ())) = some Content.empty ∧
    innerText (Header (Props.mk Content.empty ())) = "" := by
  refine ⟨?_, rfl, ?_⟩
  · simp [shape, Header, StyledHeader, StyledH1, mapContent, mapContentList]
  · simp [innerText, innerContent, Header, StyledHeader, StyledH1, renderedText]

/-- Claim C8: the only inputs of `Header` are the caller-supplied content
and the two fixed style blocks, identical on every invocation; the inner
text-size block consists of the single declaration `font-size: 2re`,
whose value carries the unit `re`, which is not a recognised unit. -/
theorem header_fixed_styles (α β : Type) (p : Props α β) :
    outerCSS (Header p) = some styledHeaderCSS ∧
    innerCSS (Header p) = some styledH1CSS ∧
    styledH1CSS = [Decl.mk "font-size" "2re"] ∧
    unitOf "2re" = some "re" ∧
    "re" ∉ knownUnits := by
  refine ⟨rfl, rfl, rfl, ?_, ?_⟩ <;> decide

/-- Claim C9: linting the style text carrying the unit `re` yields exactly
one unknown-unit diagnostic naming `re`, while linting corrected style
text using the valid unit `rem` — and the outer block, whose units are
all valid — yields no diagnostic. -/
theorem lint_unknown_unit :
    lintCSS styledH1CSS = [Diagnostic.mk "unit-no-unknown" "re"] ∧
    lintCSS [Decl.mk "font-size" "2rem"] = [] ∧
    lintCSS styledHeaderCSS = [] := by
  refine ⟨?_, ?_, ?_⟩ <;> decide

/-- Claim C10: any two props objects agreeing on their `children` value —
even with remaining fields of different types — produce identical output:
`Header` reads nothing of its props except `children`. -/
theorem header_ignores_other_props (α β γ : Type)
    (p : Props α β) (q : Props α γ) (h : p.children = q.children) :
    Header p = Header q := by
  simp [Header, StyledHeader, StyledH1, h]

/-- Witness for claim C10 at concrete props: children `5` with unrelated
fields of different types. -/
theorem header_ignores_other_props_witness :
    Header (Props.mk 5 "x") = Header (Props.mk 5 true) :=
  header_ignores_other_props Nat String Bool (Props.mk 5 "x") (Props.mk 5 true) rfl
